import Mathlib

/-!
Verification development for the symbiants simulation core.

Shallow embedding of the agent action economy (src/src/ant/hunger.rs), the
story clock and tick-rate controller (src/simulation/src/story_time.rs) and
the world map element cache (src/src/map.rs). Floating point values (f32) of
the source are embedded as exact rationals; the claims under study concern
the algebraic structure of the updates, not rounding behaviour.
-/

namespace Symbiants

/-! ## Hunger component (src/src/ant/hunger.rs, struct Hunger) -/

/-- The Hunger component: value, max and per-tick rate, all f32 in the
source, embedded as rationals. -/
structure Hunger where
  value : ℚ
  max : ℚ
  rate : ℚ
deriving DecidableEq, Repr

namespace Hunger

/-- Hunger::tick: value = (value + rate).min(max). -/
def tick (h : Hunger) : Hunger :=
  { h with value := min (h.value + h.rate) h.max }

/-- Hunger::is_full: value < max * 0.25. -/
def is_full (h : Hunger) : Bool :=
  decide (h.value < h.max * (25 / 100))

/-- Hunger::is_peckish: value >= max * 0.25. -/
def is_peckish (h : Hunger) : Bool :=
  decide (h.value ≥ h.max * (25 / 100))

/-- Hunger::is_hungry: value >= max * 0.50. -/
def is_hungry (h : Hunger) : Bool :=
  decide (h.value ≥ h.max * (50 / 100))

/-- Hunger::is_starving: value >= max * 0.75. -/
def is_starving (h : Hunger) : Bool :=
  decide (h.value ≥ h.max * (75 / 100))

/-- Hunger::is_starved: value >= max. -/
def is_starved (h : Hunger) : Bool :=
  decide (h.value ≥ h.max)

end Hunger

/-! ## Ant components -/

/-- Grid position (src/src/map.rs, struct Position): isize coordinates. -/
structure Position where
  x : Int
  y : Int
deriving DecidableEq, Repr

/-- Element occupying a grid cell (the elements module of the repository). -/
inductive Element
  | Air
  | Dirt
  | Sand
  | Food
deriving DecidableEq, Repr

/-- AntRole: affects regurgitation priority only. -/
inductive AntRole
  | Queen
  | Worker
deriving DecidableEq, Repr

/-- Modelled from the spec: the per-agent Initiative token (the ant module
file defining it is not under src/). It exposes can_act, reporting whether
the agent may still perform a consequential action this tick, and consume,
which disables acting until the next eligibility recomputation. -/
structure Initiative where
  has_action : Bool
deriving DecidableEq, Repr

namespace Initiative

/-- Initiative::can_act. -/
def can_act (i : Initiative) : Bool := i.has_action

/-- Initiative::consume: disables acting until the next eligibility pass. -/
def consume (_ : Initiative) : Initiative := ⟨false⟩

end Initiative

/-- Modelled from the spec: AntOrientation (the ant module file defining it
is not under src/) determines the single grid cell immediately ahead of the
facing of the agent, as a fixed displacement. -/
structure AntOrientation where
  dx : Int
  dy : Int
deriving DecidableEq, Repr

/-- AntOrientation::get_ahead_position: the cell immediately ahead. -/
def AntOrientation.get_ahead_position (o : AntOrientation) (p : Position) : Position :=
  ⟨p.x + o.dx, p.y + o.dy⟩

/-- One agent, carrying the components queried by the hunger and
regurgitation systems. The inventory holds the element kind carried (the
source stores an element id resolved through IdMap, a module not under
src/; only the kind of the carried element is consulted). An initiative of
none embeds the absence of the Initiative component, so the agent no
longer matches either system query. -/
structure Ant where
  id : Nat
  hunger : Hunger
  orientation : AntOrientation
  position : Position
  inventory : Option Element
  initiative : Option Initiative
  role : AntRole
  dead : Bool
deriving DecidableEq, Repr

/-- Whether the agent holds an Initiative component that still allows
acting this tick. -/
def Ant.can_act (a : Ant) : Bool :=
  match a.initiative with
  | some i => i.can_act
  | none => false

/-! ## World grid queried by the hunger system -/

/-- Modelled from the spec: the element grid consulted by the hunger system
through WorldMap::is_element and WorldMap::get_element_entity (that WorldMap
version is not under src/). Each cell holds at most one element entity. -/
structure WorldGrid where
  cells : List (Position × Nat × Element)
deriving DecidableEq, Repr

/-- WorldMap::get_element_entity: the entity occupying the cell, if any. -/
def WorldGrid.get_element_entity (g : WorldGrid) (p : Position) : Option Nat :=
  (g.cells.find? (fun c => c.1 == p)).map (fun c => c.2.1)

/-- WorldMap::is_element: whether the cell holds an element of the given
kind. -/
def WorldGrid.is_element (g : WorldGrid) (p : Position) (e : Element) : Bool :=
  (g.cells.find? (fun c => c.1 == p)).map (fun c => c.2.2) == some e

/-! ## ants_hunger (src/src/ant/hunger.rs) -/

/-- A dig command issued by the hunger system: digging agent, target
position, food entity. -/
structure Dig where
  ant : Nat
  position : Position
  food : Nat
deriving DecidableEq, Repr

/-- Processing of one agent by ants_hunger, in source order: tick hunger;
if starved, insert Dead and remove Initiative; else if peckish and able to
act, either issue a dig for food directly ahead (empty inventory) or eat
carried food, reducing hunger by at most 20 percent of max and consuming
initiative. Agents without an Initiative component do not match the query
and are untouched. -/
def ants_hunger_step (grid : WorldGrid) (a : Ant) : Ant × Option Dig :=
  match a.initiative with
  | none => (a, none)
  | some ini =>
    let h := a.hunger.tick
    let a1 := { a with hunger := h }
    if h.is_starved then
      ({ a1 with dead := true, initiative := none }, none)
    else if h.is_peckish then
      if !ini.can_act then
        (a1, none)
      else
        match a1.inventory with
        | none =>
          let ahead := a1.orientation.get_ahead_position a1.position
          if grid.is_element ahead Element.Food then
            match grid.get_element_entity ahead with
            | some food => (a1, some ⟨a1.id, ahead, food⟩)
            | none => (a1, none)
          else
            (a1, none)
        | some elem =>
          if elem = Element.Food then
            ({ a1 with
                inventory := none,
                hunger := { h with value := h.value - min (h.max * (20 / 100)) h.value },
                initiative := some ini.consume }, none)
          else
            (a1, none)
    else
      (a1, none)

/-- The ants_hunger system over the agent list: every queried agent is
processed independently; dig commands are collected in iteration order. -/
def ants_hunger (grid : WorldGrid) (ants : List Ant) : List Ant × List Dig :=
  (ants.map (fun a => (ants_hunger_step grid a).1),
   ants.filterMap (fun a => (ants_hunger_step grid a).2))

/-- Modelled from the spec: the dig command issued by the hunger system (the
ant commands module is not under src/) performs a transactional grid
mutation and consumes the initiative of the digging agent. Only the
initiative effect is embedded; the grid mutation belongs to the grid
collaborator. -/
def apply_dig_commands (ants : List Ant) (digs : List Dig) : List Ant :=
  ants.map (fun a =>
    if digs.any (fun d => d.ant == a.id) then
      { a with initiative := a.initiative.map Initiative.consume }
    else a)

/-! ## ants_regurgitate (src/src/ant/hunger.rs) -/

/-- The donor search predicate of ants_regurgitate: the donor must retain
initiative and carry nothing, and be either directly ahead of the candidate
and itself facing back toward the candidate, or co-located with the
candidate and a distinct agent. -/
def regurgitate_donor_pred (c : Ant) (ahead : Position) (o : Ant) : Bool :=
  if !o.can_act || !o.inventory.isNone then
    false
  else if o.position == ahead
      && o.orientation.get_ahead_position o.position == c.position then
    true
  else if o.position == c.position && o.id != c.id then
    true
  else
    false

/-- The donation eligibility policy of ants_regurgitate: a Queen candidate
always receives; a starving candidate receives from a donor that is not
hungry; a hungry candidate receives only from a full donor. -/
def regurgitate_allowed (c o : Ant) : Bool :=
  c.role == AntRole.Queen
    || (c.hunger.is_starving && !o.hunger.is_hungry)
    || (c.hunger.is_hungry && o.hunger.is_full)

/-- The propose phase of ants_regurgitate: filter the peckish candidates
(initiative retained, peckish or worse, carrying nothing), find the first
eligible donor for each, apply the eligibility policy, and record
(candidate id, donor id, min(donor.max * 0.20, donor.value)). -/
def propose_transfers (ants : List Ant) : List (Nat × Nat × ℚ) :=
  let peckish := ants.filter (fun a =>
    a.can_act && a.hunger.is_peckish && a.inventory.isNone)
  peckish.filterMap (fun c =>
    let ahead := c.orientation.get_ahead_position c.position
    match ants.find? (regurgitate_donor_pred c ahead) with
    | some o =>
      if regurgitate_allowed c o then
        some (c.id, o.id, min (o.hunger.max * (20 / 100)) o.hunger.value)
      else
        none
    | none => none)

/-- The apply phase of ants_regurgitate for one pending transfer: re-check
that both parties still hold initiative; if either lost it, skip entirely;
otherwise subtract the amount from the candidate hunger value, add it to
the donor hunger value, and consume both initiatives. -/
def apply_transfer (ants : List Ant) (t : Nat × Nat × ℚ) : List Ant :=
  match ants.find? (fun a => a.id == t.1), ants.find? (fun a => a.id == t.2.1) with
  | some c, some o =>
    if c.can_act && o.can_act then
      ants.map (fun a =>
        if a.id == t.1 then
          { a with
              hunger := { a.hunger with value := a.hunger.value - t.2.2 },
              initiative := a.initiative.map Initiative.consume }
        else if a.id == t.2.1 then
          { a with
              hunger := { a.hunger with value := a.hunger.value + t.2.2 },
              initiative := a.initiative.map Initiative.consume }
        else a)
    else
      ants
  | _, _ => ants

/-- The ants_regurgitate system: propose against the unmutated snapshot,
then apply the pending transfers in order. -/
def ants_regurgitate (ants : List Ant) : List Ant :=
  (propose_transfers ants).foldl apply_transfer ants

/-! ## Story clock and tick rate controller (src/simulation/src/story_time.rs) -/

/-- SECONDS_PER_DAY constant. -/
def SECONDS_PER_DAY : Int := 86400

/-- MAX_SYSTEM_TICKS_PER_SECOND constant. -/
def MAX_SYSTEM_TICKS_PER_SECOND : Int := 50000

/-- Modelled from the spec: the fixed-timestep accumulator SimulationTime
(the simulation_timestep module is not under src/). It stores the step
period and the accumulated-but-unsimulated real time, both as exact
rational seconds. -/
structure SimulationTime where
  period : ℚ
  accumulated : ℚ
deriving DecidableEq, Repr

namespace SimulationTime

/-- Modelled from the spec: tick adds elapsed real time to the
accumulator. -/
def tick (s : SimulationTime) (d : ℚ) : SimulationTime :=
  { s with accumulated := s.accumulated + d }

/-- Modelled from the spec: expend consumes one period from the
accumulator when enough time has accumulated, reporting success. -/
def expend (s : SimulationTime) : SimulationTime × Bool :=
  if s.period ≤ s.accumulated then
    ({ s with accumulated := s.accumulated - s.period }, true)
  else
    (s, false)

/-- Duration::as_secs on the accumulator: whole seconds, truncated.
Durations are nonnegative, so truncation is the floor. -/
def as_secs (q : ℚ) : Int := ⌊q⌋

end SimulationTime

/-- StoryPlaybackState. -/
inductive StoryPlaybackState
  | Stopped
  | Paused
  | Playing
  | FastForwarding
deriving DecidableEq, Repr

/-- FastForwardingStateInfo. -/
structure FastForwardingStateInfo where
  initial_pending_ticks : Int
  pending_ticks : Int
deriving DecidableEq, Repr

/-- The StoryTime fields consulted by setup_story_time. -/
structure StoryTime where
  elapsed_ticks : Int
  is_real_time : Bool
deriving DecidableEq, Repr

/-- Result of the setup_story_time resume branch. -/
structure SetupResult where
  story_time : StoryTime
  simulation_time : SimulationTime
  next_state : StoryPlaybackState
deriving DecidableEq, Repr

/-- The resume branch of setup_story_time (taken when a previous real-world
timestamp was recorded): compute the real-world delta in seconds, teleport
the excess past 24 hours into elapsed_ticks when tracking real time, clamp
the delta to 24 hours, register the clamped delta on the simulation-time
accumulator, and queue the Playing state. -/
def setup_story_time (delta_seconds : Int) (story_time : StoryTime)
    (ticks_per_second : Int) (simulation_time : SimulationTime) : SetupResult :=
  let seconds_past_max := delta_seconds - SECONDS_PER_DAY
  let story_time' :=
    if seconds_past_max > 0 then
      if story_time.is_real_time then
        { story_time with
            elapsed_ticks := story_time.elapsed_ticks + seconds_past_max * ticks_per_second }
      else story_time
    else story_time
  let delta_seconds' := if seconds_past_max > 0 then SECONDS_PER_DAY else delta_seconds
  { story_time := story_time'
    simulation_time := simulation_time.tick delta_seconds'
    next_state := StoryPlaybackState.Playing }

/-- The resources read and written by set_rate_of_time and
update_time_scale. -/
structure StoryTimeState where
  simulation_time : SimulationTime
  fast_forward_state_info : FastForwardingStateInfo
  ticks_per_second : Int
  story_playback_state : StoryPlaybackState
  next_story_playback_state : Option StoryPlaybackState
deriving DecidableEq, Repr

/-- set_rate_of_time: with no pending backlog, either restore the period to
1 / TicksPerSecond on exit from FastForwarding (queueing Playing and
clearing initial_pending_ticks), or, when the accumulated whole seconds
exceed one, discharge the accumulator as a single consumed period, raise
the period to 1 / MAX_SYSTEM_TICKS_PER_SECOND and, unless Paused, record
the owed ticks and queue FastForwarding; with pending backlog, decrement
pending_ticks by one. -/
def set_rate_of_time (s : StoryTimeState) : StoryTimeState :=
  if s.fast_forward_state_info.pending_ticks = 0 then
    if s.story_playback_state = StoryPlaybackState.FastForwarding then
      { s with
          simulation_time :=
            { s.simulation_time with period := 1 / (s.ticks_per_second : ℚ) }
          next_story_playback_state := some StoryPlaybackState.Playing
          fast_forward_state_info :=
            { s.fast_forward_state_info with initial_pending_ticks := 0 } }
    else
      let accumulated_time := s.simulation_time.accumulated
      if SimulationTime.as_secs accumulated_time > 1 then
        let sim1 := { s.simulation_time with period := accumulated_time }
        let sim2 := (sim1.expend).1
        let sim3 := { sim2 with period := 1 / (MAX_SYSTEM_TICKS_PER_SECOND : ℚ) }
        if s.story_playback_state ≠ StoryPlaybackState.Paused then
          let ticks := s.ticks_per_second * SimulationTime.as_secs accumulated_time
          { s with
              simulation_time := sim3
              next_story_playback_state := some StoryPlaybackState.FastForwarding
              fast_forward_state_info :=
                { pending_ticks := ticks, initial_pending_ticks := ticks } }
        else
          { s with simulation_time := sim3 }
      else
        s
  else
    { s with
        fast_forward_state_info :=
          { s.fast_forward_state_info with
              pending_ticks := s.fast_forward_state_info.pending_ticks - 1 } }

/-- update_time_scale: do nothing when the state is FastForwarding or the
queued next state is FastForwarding; otherwise set the period to
1 / TicksPerSecond. -/
def update_time_scale (s : StoryTimeState) : StoryTimeState :=
  if s.story_playback_state = StoryPlaybackState.FastForwarding
      ∨ s.next_story_playback_state = some StoryPlaybackState.FastForwarding then
    s
  else
    { s with
        simulation_time :=
          { s.simulation_time with period := 1 / (s.ticks_per_second : ℚ) } }

/-! ## Concrete scenario agents used by individual claims -/

/-- Starving worker candidate of the C1 scenario: value 75, max 100, facing
the cell to its right. -/
def C1cand : Ant :=
  ⟨0, ⟨75, 100, 1⟩, ⟨1, 0⟩, ⟨0, 0⟩, none, some ⟨true⟩, AntRole.Worker, false⟩

/-- Donor worker of the C1 scenario: value 40, max 100, adjacent to the
candidate and facing back toward it. -/
def C1donor : Ant :=
  ⟨1, ⟨40, 100, 1⟩, ⟨-1, 0⟩, ⟨1, 0⟩, none, some ⟨true⟩, AntRole.Worker, false⟩

/-- Paused-free state of the C3 counterexample: no pending ticks, Playing,
accumulated unsimulated time of one and a half seconds. -/
def C3state : StoryTimeState :=
  ⟨⟨1 / 10, 3 / 2⟩, ⟨0, 0⟩, 10, StoryPlaybackState.Playing, none⟩

/-- Queen candidate of the C4 counterexample: peckish at value 30. -/
def C4queen : Ant :=
  ⟨0, ⟨30, 100, 1⟩, ⟨1, 0⟩, ⟨0, 0⟩, none, some ⟨true⟩, AntRole.Queen, false⟩

/-- Donor of the C4 counterexample: value 90 with max 100, co-located with
the queen. -/
def C4donor : Ant :=
  ⟨1, ⟨90, 100, 1⟩, ⟨1, 0⟩, ⟨0, 0⟩, none, some ⟨true⟩, AntRole.Worker, false⟩

/-- Full agent of the C6 witness: post-tick hunger 11 of max 100, below the
peckish tier. -/
def C6wit : Ant :=
  ⟨0, ⟨10, 100, 1⟩, ⟨1, 0⟩, ⟨0, 0⟩, none, some ⟨true⟩, AntRole.Worker, false⟩

/-- Agent of the C4 witness: able to act and carrying food, exercising the
eat branch of the hunger step. -/
def C4wit : Ant :=
  ⟨0, ⟨29, 100, 1⟩, ⟨1, 0⟩, ⟨0, 0⟩, some Element.Food, some ⟨true⟩, AntRole.Worker, false⟩

/-- First of three mutually adjacent (co-located) queens of the C5
scenario. -/
def C5one : Ant :=
  ⟨0, ⟨30, 100, 1⟩, ⟨1, 0⟩, ⟨0, 0⟩, none, some ⟨true⟩, AntRole.Queen, false⟩

/-- Second of three co-located queens of the C5 scenario. -/
def C5two : Ant :=
  ⟨1, ⟨30, 100, 1⟩, ⟨1, 0⟩, ⟨0, 0⟩, none, some ⟨true⟩, AntRole.Queen, false⟩

/-- Third of three co-located queens of the C5 scenario. -/
def C5three : Ant :=
  ⟨2, ⟨30, 100, 1⟩, ⟨1, 0⟩, ⟨0, 0⟩, none, some ⟨true⟩, AntRole.Queen, false⟩

/-- Agent of the C6 counterexample: hunger 29 (30 after the tick, between
the peckish and hungry tiers), carrying food, able to act. -/
def C6ant : Ant :=
  ⟨0, ⟨29, 100, 1⟩, ⟨1, 0⟩, ⟨0, 0⟩, some Element.Food, some ⟨true⟩, AntRole.Worker, false⟩

/-- Forager of the C7 witness: peckish after the tick, empty inventory. -/
def C7ant : Ant :=
  ⟨0, ⟨29, 100, 1⟩, ⟨1, 0⟩, ⟨0, 0⟩, none, some ⟨true⟩, AntRole.Worker, false⟩

/-- Grid of the C7 witness: food entity 7 in the cell ahead of the
forager. -/
def C7grid : WorldGrid := ⟨[(⟨1, 0⟩, 7, Element.Food)]⟩

/-- Starving agent of the C8 witness: hunger reaches max on the next
tick. -/
def C8ant : Ant :=
  ⟨0, ⟨100, 100, 1⟩, ⟨1, 0⟩, ⟨0, 0⟩, none, some ⟨true⟩, AntRole.Worker, false⟩

/-! ## WorldMap element cache (src/src/map.rs) -/

/-- Rust cast of an isize to usize: twos-complement wrap modulo 2 to the
64th power. -/
def as_usize (i : Int) : Nat := (i % (2 ^ 64 : Int)).toNat

/-- The WorldMap fields consulted by get_element and set_element. The
elements cache is None until set_elements initializes it. -/
structure WorldMap where
  width : Int
  height : Int
  elements_cache : Option (List (List Nat))
deriving DecidableEq, Repr

/-- WorldMap::get_element: the option-chained lookup. The cache access uses
the question-mark operator and Vec::get, so a missing cache, a row index
outside the cache or a column index outside the row all yield None. -/
def WorldMap.get_element (m : WorldMap) (p : Position) : Option Nat :=
  match m.elements_cache with
  | none => none
  | some cache =>
    match cache[as_usize p.y]? with
    | none => none
    | some row => row[as_usize p.x]?

/-- WorldMap::set_element: writes through get_mut and fails fast otherwise.
The three panic sites (uninitialized cache, invalid y, invalid x) are
embedded as None; a successful write returns the updated map. -/
def WorldMap.set_element (m : WorldMap) (p : Position) (entity : Nat) : Option WorldMap :=
  match m.elements_cache with
  | none => none
  | some cache =>
    match cache[as_usize p.y]? with
    | none => none
    | some row =>
      if as_usize p.x < row.length then
        some { m with
                 elements_cache :=
                   some (cache.set (as_usize p.y) (row.set (as_usize p.x) entity)) }
      else
        none

/-! ## Theorems -/

/-- C2: in setup_story_time on a resume whose real-world delta exceeds
86400 seconds, elapsed_ticks is increased by (delta - 86400) *
ticks_per_second exactly when is_real_time holds, and the delta registered
as simulation backlog is clamped to exactly 86400 seconds regardless of the
gap size. -/
theorem C2_setup_clamp (delta elapsed tps : Int) (sim : SimulationTime) (irt : Bool)
    (hd : 86400 < delta) (htps : 0 < tps) :
    (setup_story_time delta ⟨elapsed, irt⟩ tps sim).simulation_time.accumulated =
        sim.accumulated + 86400
      ∧ ((setup_story_time delta ⟨elapsed, irt⟩ tps sim).story_time.elapsed_ticks =
          elapsed + (delta - 86400) * tps ↔ irt = true)
      ∧ (irt = false →
          (setup_story_time delta ⟨elapsed, irt⟩ tps sim).story_time.elapsed_ticks = elapsed) := by
  have hpos : (0 : Int) < delta - 86400 := by omega
  have hmul : 0 < (delta - 86400) * tps := mul_pos hpos htps
  refine ⟨?_, ?_, ?_⟩
  · have h : (setup_story_time delta ⟨elapsed, irt⟩ tps sim).simulation_time.accumulated =
        sim.accumulated + ((86400 : Int) : ℚ) := by
      simp [setup_story_time, SimulationTime.tick, SECONDS_PER_DAY, hpos]
    rw [h]; push_cast; ring
  · cases irt with
    | false =>
      have h : (setup_story_time delta ⟨elapsed, false⟩ tps sim).story_time.elapsed_ticks =
          elapsed := by
        simp [setup_story_time, SimulationTime.tick, SECONDS_PER_DAY]
      rw [h]
      simp only [Bool.false_eq_true, iff_false]
      intro hc
      omega
    | true =>
      have h : (setup_story_time delta ⟨elapsed, true⟩ tps sim).story_time.elapsed_ticks =
          elapsed + (delta - 86400) * tps := by
        simp [setup_story_time, SimulationTime.tick, SECONDS_PER_DAY, hpos]
      rw [h]
      simp
  · intro hirt
    subst hirt
    simp [setup_story_time, SimulationTime.tick, SECONDS_PER_DAY]

/-- C2 witness: a 90000-second gap with is_real_time = false yields a
registered backlog of exactly 86400 seconds and an unchanged tick
counter. -/
theorem C2_setup_clamp_witness :
    (setup_story_time 90000 ⟨0, false⟩ 10 ⟨1 / 10, 0⟩).simulation_time.accumulated =
        (0 : ℚ) + 86400
      ∧ ((setup_story_time 90000 ⟨0, false⟩ 10 ⟨1 / 10, 0⟩).story_time.elapsed_ticks =
          0 + (90000 - 86400) * 10 ↔ false = true)
      ∧ (false = false →
          (setup_story_time 90000 ⟨0, false⟩ 10 ⟨1 / 10, 0⟩).story_time.elapsed_ticks = 0) :=
  C2_setup_clamp 90000 0 10 ⟨1 / 10, 0⟩ false (by decide) (by decide)

/-- C3 counterexample: with no pending ticks, state Playing and an
accumulated unsimulated time of 1.5 seconds, the accumulation exceeds one
second, yet set_rate_of_time changes nothing: no discharge, no raised
period, no fast-forward entry, contradicting the claim as stated. -/
theorem C3_counterexample :
    (1 : ℚ) < C3state.simulation_time.accumulated
      ∧ C3state.fast_forward_state_info.pending_ticks = 0
      ∧ C3state.story_playback_state ≠ StoryPlaybackState.FastForwarding
      ∧ C3state.story_playback_state ≠ StoryPlaybackState.Paused
      ∧ set_rate_of_time C3state = C3state
      ∧ (set_rate_of_time C3state).simulation_time.period ≠
          1 / (MAX_SYSTEM_TICKS_PER_SECOND : ℚ)
      ∧ (set_rate_of_time C3state).next_story_playback_state ≠
          some StoryPlaybackState.FastForwarding := by
  have hrun : set_rate_of_time C3state = C3state := by
    norm_num [set_rate_of_time, C3state, SimulationTime.as_secs]
    intro h
    exact absurd h (by decide)
  refine ⟨by norm_num [C3state], by decide, by decide, by decide, hrun, ?_, ?_⟩
  · rw [hrun]
    norm_num [C3state, MAX_SYSTEM_TICKS_PER_SECOND]
  · rw [hrun]
    decide

/-- C3 as amended: set_rate_of_time decrements a positive backlog by one;
with no backlog it restores the period to 1 / TicksPerSecond, queues
Playing and clears initial_pending_ticks when FastForwarding; when not
FastForwarding and the accumulated time holds more than one whole second
(Duration::as_secs exceeds 1, so at least two full seconds), it discharges
the accumulator as one consumed period, raises the period to
1 / MAX_SYSTEM_TICKS_PER_SECOND, and, exactly when not Paused, records
pending_ticks = initial_pending_ticks = ticks_per_second * whole
accumulated seconds and queues FastForwarding; otherwise it changes
nothing. -/
theorem C3_rate_controller (s : StoryTimeState) :
    (s.fast_forward_state_info.pending_ticks ≠ 0 →
      set_rate_of_time s = { s with
        fast_forward_state_info := { s.fast_forward_state_info with
          pending_ticks := s.fast_forward_state_info.pending_ticks - 1 } })
    ∧ (s.fast_forward_state_info.pending_ticks = 0 →
        s.story_playback_state = StoryPlaybackState.FastForwarding →
        set_rate_of_time s = { s with
          simulation_time := { s.simulation_time with
            period := 1 / (s.ticks_per_second : ℚ) }
          next_story_playback_state := some StoryPlaybackState.Playing
          fast_forward_state_info := { s.fast_forward_state_info with
            initial_pending_ticks := 0 } })
    ∧ (s.fast_forward_state_info.pending_ticks = 0 →
        s.story_playback_state ≠ StoryPlaybackState.FastForwarding →
        s.story_playback_state ≠ StoryPlaybackState.Paused →
        1 < SimulationTime.as_secs s.simulation_time.accumulated →
        set_rate_of_time s = { s with
          simulation_time :=
            { period := 1 / (MAX_SYSTEM_TICKS_PER_SECOND : ℚ), accumulated := 0 }
          next_story_playback_state := some StoryPlaybackState.FastForwarding
          fast_forward_state_info :=
            { pending_ticks :=
                s.ticks_per_second * SimulationTime.as_secs s.simulation_time.accumulated
              initial_pending_ticks :=
                s.ticks_per_second * SimulationTime.as_secs s.simulation_time.accumulated } })
    ∧ (s.fast_forward_state_info.pending_ticks = 0 →
        s.story_playback_state = StoryPlaybackState.Paused →
        1 < SimulationTime.as_secs s.simulation_time.accumulated →
        set_rate_of_time s = { s with
          simulation_time :=
            { period := 1 / (MAX_SYSTEM_TICKS_PER_SECOND : ℚ), accumulated := 0 } })
    ∧ (s.fast_forward_state_info.pending_ticks = 0 →
        s.story_playback_state ≠ StoryPlaybackState.FastForwarding →
        ¬ 1 < SimulationTime.as_secs s.simulation_time.accumulated →
        set_rate_of_time s = s) := by
  refine ⟨?_, ?_, ?_, ?_, ?_⟩
  · intro h
    unfold set_rate_of_time
    simp [h]
  · intro h0 hFF
    unfold set_rate_of_time
    simp [h0, hFF]
  · intro h0 hnFF hnP hacc
    unfold set_rate_of_time
    simp only [h0, if_pos, hnFF, if_neg, hacc, hnP, ite_not, SimulationTime.expend,
      le_refl, if_true, sub_self]
    simp [hnFF, hnP, hacc]
  · intro h0 hP hacc
    unfold set_rate_of_time
    have hnFF : s.story_playback_state ≠ StoryPlaybackState.FastForwarding := by
      rw [hP]; intro h; cases h
    simp only [h0, if_pos, hnFF, if_neg, hacc, SimulationTime.expend,
      le_refl, if_true, sub_self]
    simp [hnFF, hP, hacc]
  · intro h0 hnFF hacc
    unfold set_rate_of_time
    simp [h0, hnFF, hacc]

/-- C3 witness: with no backlog, state Playing and 2.5 accumulated seconds,
the controller discharges the accumulator, raises the period to the system
ceiling and records 25 owed ticks at 10 ticks per second. -/
theorem C3_rate_controller_witness :
    set_rate_of_time ⟨⟨1 / 10, 5 / 2⟩, ⟨0, 0⟩, 10, StoryPlaybackState.Playing, none⟩ =
      { simulation_time := { period := 1 / (MAX_SYSTEM_TICKS_PER_SECOND : ℚ), accumulated := 0 }
        fast_forward_state_info := { pending_ticks := 20, initial_pending_ticks := 20 }
        ticks_per_second := 10
        story_playback_state := StoryPlaybackState.Playing
        next_story_playback_state := some StoryPlaybackState.FastForwarding } := by
  have h := (C3_rate_controller
    ⟨⟨1 / 10, 5 / 2⟩, ⟨0, 0⟩, 10, StoryPlaybackState.Playing, none⟩).2.2.1
    (by decide) (by decide) (by decide)
    (by norm_num [SimulationTime.as_secs])
  rw [h]
  norm_num [SimulationTime.as_secs]

/-- C9: update_time_scale leaves the step period (and everything else)
unchanged when the playback state is FastForwarding or the queued next
state is FastForwarding; in every other state it only sets the period to
1 / TicksPerSecond. -/
theorem C9_update_time_scale (s : StoryTimeState) :
    ((s.story_playback_state = StoryPlaybackState.FastForwarding
        ∨ s.next_story_playback_state = some StoryPlaybackState.FastForwarding) →
      update_time_scale s = s)
    ∧ (s.story_playback_state ≠ StoryPlaybackState.FastForwarding →
        s.next_story_playback_state ≠ some StoryPlaybackState.FastForwarding →
        update_time_scale s = { s with
          simulation_time := { s.simulation_time with
            period := 1 / (s.ticks_per_second : ℚ) } }) := by
  constructor
  · intro h
    unfold update_time_scale
    simp [h]
  · intro h1 h2
    unfold update_time_scale
    simp [h1, h2]

/-- C9 witness: in the Playing state with no queued fast-forward, the
period is assigned 1 / TicksPerSecond. -/
theorem C9_update_time_scale_witness :
    update_time_scale ⟨⟨1 / 50000, 0⟩, ⟨0, 0⟩, 10, StoryPlaybackState.Playing, none⟩ =
      { simulation_time := { period := (1 : ℚ) / (10 : Int), accumulated := 0 }
        fast_forward_state_info := ⟨0, 0⟩
        ticks_per_second := 10
        story_playback_state := StoryPlaybackState.Playing
        next_story_playback_state := none } :=
  (C9_update_time_scale
    ⟨⟨1 / 50000, 0⟩, ⟨0, 0⟩, 10, StoryPlaybackState.Playing, none⟩).2
    (by decide) (by decide)

/-- C10: WorldMap::get_element is total, returning None (never panicking)
for an uninitialized cache and for any out-of-range coordinate, negative
(wrapped by the isize-to-usize cast) or too large; WorldMap::set_element is
the one that fails fast, at exactly three sites: uninitialized cache,
invalid row, invalid column; an in-bounds write on an initialized cache
succeeds. Bounds: coordinates range over isize and Rust vector lengths fit
in the positive isize range. -/
theorem C10_map_access (w : WorldMap) (p : Position) (e : Nat) :
    (w.elements_cache = none → w.get_element p = none)
    ∧ (∀ cache, w.elements_cache = some cache →
        -2 ^ 63 ≤ p.y → p.y < 0 → cache.length ≤ 2 ^ 63 →
        w.get_element p = none)
    ∧ (∀ cache row, w.elements_cache = some cache →
        cache[as_usize p.y]? = some row →
        -2 ^ 63 ≤ p.x → p.x < 0 → row.length ≤ 2 ^ 63 →
        w.get_element p = none)
    ∧ (∀ cache, w.elements_cache = some cache →
        0 ≤ p.y → (cache.length : Int) ≤ p.y → p.y < 2 ^ 64 →
        w.get_element p = none)
    ∧ (∀ cache row, w.elements_cache = some cache →
        cache[as_usize p.y]? = some row →
        0 ≤ p.x → (row.length : Int) ≤ p.x → p.x < 2 ^ 64 →
        w.get_element p = none)
    ∧ (w.elements_cache = none → w.set_element p e = none)
    ∧ (∀ cache, w.elements_cache = some cache → cache[as_usize p.y]? = none →
        w.set_element p e = none)
    ∧ (∀ cache row, w.elements_cache = some cache → cache[as_usize p.y]? = some row →
        row.length ≤ as_usize p.x → w.set_element p e = none)
    ∧ (∀ cache row, w.elements_cache = some cache → cache[as_usize p.y]? = some row →
        as_usize p.x < row.length → (w.set_element p e).isSome = true) := by
  refine ⟨?_, ?_, ?_, ?_, ?_, ?_, ?_, ?_, ?_⟩
  · intro h
    simp only [WorldMap.get_element, h]
  · intro cache hc hy1 hy2 hlen
    have hge : cache.length ≤ as_usize p.y := by
      unfold as_usize; omega
    simp only [WorldMap.get_element, hc, List.getElem?_eq_none hge]
  · intro cache row hc hrow hx1 hx2 hlen
    have hge : row.length ≤ as_usize p.x := by
      unfold as_usize; omega
    simp only [WorldMap.get_element, hc, hrow, List.getElem?_eq_none hge]
  · intro cache hc hy1 hy2 hy3
    have hge : cache.length ≤ as_usize p.y := by
      unfold as_usize; omega
    simp only [WorldMap.get_element, hc, List.getElem?_eq_none hge]
  · intro cache row hc hrow hx1 hx2 hx3
    have hge : row.length ≤ as_usize p.x := by
      unfold as_usize; omega
    simp only [WorldMap.get_element, hc, hrow, List.getElem?_eq_none hge]
  · intro h
    simp only [WorldMap.set_element, h]
  · intro cache hc hrow
    simp only [WorldMap.set_element, hc, hrow]
  · intro cache row hc hrow hge
    simp only [WorldMap.set_element, hc, hrow]
    rw [if_neg (by omega)]
  · intro cache row hc hrow hlt
    simp only [WorldMap.set_element, hc, hrow]
    rw [if_pos hlt]
    rfl

/-- C10 witness: on a 1 by 1 initialized map, get_element returns None at
the negative position (-1, -1) and set_element succeeds at (0, 0). -/
theorem C10_map_access_witness :
    WorldMap.get_element ⟨1, 1, some [[5]]⟩ ⟨-1, -1⟩ = none
      ∧ (WorldMap.set_element ⟨1, 1, some [[5]]⟩ ⟨0, 0⟩ 9).isSome = true := by
  constructor
  · exact (C10_map_access ⟨1, 1, some [[5]]⟩ ⟨-1, -1⟩ 9).2.1 [[5]] rfl
      (by decide) (by decide) (by decide)
  · exact (C10_map_access ⟨1, 1, some [[5]]⟩ ⟨0, 0⟩ 9).2.2.2.2.2.2.2.2 [[5]] [5] rfl
      (by decide) (by decide)

/-- C1 counterexample: in the specified scenario (donor value 40, max 100,
candidate starving at 75), the committed transfer amount is 20, but the
code subtracts the amount from the candidate (75 to 55) and adds it to the
donor (40 to 60); the donor does not end at 20 and the candidate does not
increase to 95 as claimed. -/
theorem C1_counterexample :
    propose_transfers [C1cand, C1donor] = [(0, 1, 20)]
      ∧ ants_regurgitate [C1cand, C1donor] =
          [{ C1cand with hunger := ⟨55, 100, 1⟩, initiative := some ⟨false⟩ },
           { C1donor with hunger := ⟨60, 100, 1⟩, initiative := some ⟨false⟩ }]
      ∧ (55 : ℚ) ≠ 75 + 20
      ∧ (60 : ℚ) ≠ 40 - 20 := by
  refine ⟨?_, ?_, by norm_num, by norm_num⟩
  · norm_num [propose_transfers, C1cand, C1donor, Ant.can_act, Initiative.can_act,
      Hunger.is_peckish, Hunger.is_starving, Hunger.is_hungry, Hunger.is_full,
      regurgitate_donor_pred, regurgitate_allowed, AntOrientation.get_ahead_position,
      List.filter, List.filterMap, List.find?]
    all_goals decide
  · norm_num [ants_regurgitate, propose_transfers, apply_transfer, C1cand, C1donor,
      Ant.can_act, Initiative.can_act, Initiative.consume,
      Hunger.is_peckish, Hunger.is_starving, Hunger.is_hungry, Hunger.is_full,
      regurgitate_donor_pred, regurgitate_allowed, AntOrientation.get_ahead_position,
      List.filter, List.filterMap, List.find?, List.foldl]
    all_goals decide

/-- C1 as amended: for every regurgitation transfer committed in a tick,
the amount equals min(20 percent of donor.max, donor.value), the amount is
subtracted from the CANDIDATE Hunger value and added to the DONOR Hunger
value (the hungry candidate is relieved, the donor becomes hungrier), both
initiatives are consumed, and all other agents are untouched; in the
scenario with donor value 40, max 100 and a starving candidate at 75, the
transfer is 20, the candidate ends at 55 and the donor at 60. -/
theorem C1_regurgitation_transfer :
    (∀ (ants : List Ant) (cid did : Nat) (amt : ℚ) (c o : Ant),
      ants.find? (fun a => a.id == cid) = some c →
      ants.find? (fun a => a.id == did) = some o →
      c.can_act = true → o.can_act = true →
      ∀ (i : Nat) (a : Ant), ants[i]? = some a →
        (a.id = cid →
          (apply_transfer ants (cid, did, amt))[i]? =
            some { a with
                     hunger := { a.hunger with value := a.hunger.value - amt },
                     initiative := a.initiative.map Initiative.consume })
        ∧ (a.id ≠ cid → a.id = did →
            (apply_transfer ants (cid, did, amt))[i]? =
              some { a with
                       hunger := { a.hunger with value := a.hunger.value + amt },
                       initiative := a.initiative.map Initiative.consume })
        ∧ (a.id ≠ cid → a.id ≠ did →
            (apply_transfer ants (cid, did, amt))[i]? = some a))
    ∧ propose_transfers [C1cand, C1donor] =
        [(C1cand.id, C1donor.id,
          min (C1donor.hunger.max * (20 / 100)) C1donor.hunger.value)]
    ∧ ants_regurgitate [C1cand, C1donor] =
        [{ C1cand with hunger := ⟨55, 100, 1⟩, initiative := some ⟨false⟩ },
         { C1donor with hunger := ⟨60, 100, 1⟩, initiative := some ⟨false⟩ }] := by
  refine ⟨?_, ?_, ?_⟩
  · intro ants cid did amt c o hc ho hcact hoact i a hi
    have hmap : apply_transfer ants (cid, did, amt) = ants.map (fun a =>
        if a.id == cid then
          { a with
              hunger := { a.hunger with value := a.hunger.value - amt },
              initiative := a.initiative.map Initiative.consume }
        else if a.id == did then
          { a with
              hunger := { a.hunger with value := a.hunger.value + amt },
              initiative := a.initiative.map Initiative.consume }
        else a) := by
      simp only [apply_transfer, hc, ho, hcact, hoact, Bool.and_self, if_true]
    refine ⟨?_, ?_, ?_⟩
    · intro h1
      rw [hmap, List.getElem?_map, hi]
      simp [h1]
    · intro h1 h2
      have hne : did ≠ cid := by rw [← h2]; exact h1
      rw [hmap, List.getElem?_map, hi]
      simp [h1, h2, hne]
    · intro h1 h2
      rw [hmap, List.getElem?_map, hi]
      simp [h1, h2]
  · norm_num [propose_transfers, C1cand, C1donor, Ant.can_act, Initiative.can_act,
      Hunger.is_peckish, Hunger.is_starving, Hunger.is_hungry, Hunger.is_full,
      regurgitate_donor_pred, regurgitate_allowed, AntOrientation.get_ahead_position,
      List.filter, List.filterMap, List.find?]
    all_goals decide
  · norm_num [ants_regurgitate, propose_transfers, apply_transfer, C1cand, C1donor,
      Ant.can_act, Initiative.can_act, Initiative.consume,
      Hunger.is_peckish, Hunger.is_starving, Hunger.is_hungry, Hunger.is_full,
      regurgitate_donor_pred, regurgitate_allowed, AntOrientation.get_ahead_position,
      List.filter, List.filterMap, List.find?, List.foldl]
    all_goals decide

/-- C1 witness: the committed-transfer description applied to the concrete
two-agent scenario, at the donor position. -/
theorem C1_regurgitation_transfer_witness :
    (apply_transfer [C1cand, C1donor] (0, 1, 20))[1]? =
      some { C1donor with
               hunger := { C1donor.hunger with value := C1donor.hunger.value + 20 },
               initiative := C1donor.initiative.map Initiative.consume } :=
  (C1_regurgitation_transfer.1 [C1cand, C1donor] 0 1 20 C1cand C1donor
    (List.find?_cons_of_pos _ (by decide))
    (by
      rw [List.find?_cons_of_neg _ (by decide)]
      exact List.find?_cons_of_pos _ (by decide))
    (by decide) (by decide) 1 C1donor rfl).2.1 (by decide) rfl

/-- C4 counterexample: a peckish Queen candidate (value 30) co-located with
a donor at value 90 (max 100) commits a transfer of 20; the apply phase
does not clamp the donor side, leaving the donor at value 110, which
violates 0 <= value <= max. Both agents satisfied the invariant before the
tick. -/
theorem C4_counterexample :
    (0 : ℚ) ≤ C4donor.hunger.value ∧ C4donor.hunger.value ≤ C4donor.hunger.max
      ∧ ants_regurgitate [C4queen, C4donor] =
          [{ C4queen with hunger := ⟨10, 100, 1⟩, initiative := some ⟨false⟩ },
           { C4donor with hunger := ⟨110, 100, 1⟩, initiative := some ⟨false⟩ }]
      ∧ ¬ ((110 : ℚ) ≤ (100 : ℚ)) := by
  refine ⟨by norm_num [C4donor], by norm_num [C4donor], ?_, by norm_num⟩
  norm_num [ants_regurgitate, propose_transfers, apply_transfer, C4queen, C4donor,
    Ant.can_act, Initiative.can_act, Initiative.consume,
    Hunger.is_peckish, Hunger.is_starving, Hunger.is_hungry, Hunger.is_full,
    regurgitate_donor_pred, regurgitate_allowed, AntOrientation.get_ahead_position,
    List.filter, List.filterMap, List.find?, List.foldl]
  decide

/-- C4 as amended: the per-tick hunger advance and the eat-carried-food
update (the full per-agent pass of the hunger system) preserve
0 <= value <= max, and the candidate side of a committed regurgitation
transfer stays within [0, max] whenever candidate and donor share the same
max (the code always constructs max = 100) and the candidate is at least
peckish; the donor side of a transfer is not clamped and can exceed max
(C4 counterexample). -/
theorem C4_clamp (grid : WorldGrid) (a : Ant)
    (h0 : 0 ≤ a.hunger.value) (hr : 0 ≤ a.hunger.rate) (hm : a.hunger.value ≤ a.hunger.max) :
    (0 ≤ (ants_hunger_step grid a).1.hunger.value
      ∧ (ants_hunger_step grid a).1.hunger.value ≤ a.hunger.max)
    ∧ (∀ ch oh : Hunger,
        ch.is_peckish = true → ch.max = oh.max → 0 < ch.max → ch.value ≤ ch.max →
        0 ≤ oh.value →
        0 ≤ ch.value - min (oh.max * (20 / 100)) oh.value
          ∧ ch.value - min (oh.max * (20 / 100)) oh.value ≤ ch.max) := by
  have hmax0 : (0 : ℚ) ≤ a.hunger.max := le_trans h0 hm
  have htick0 : 0 ≤ a.hunger.tick.value := by
    unfold Hunger.tick
    exact le_min (add_nonneg h0 hr) hmax0
  have htickm : a.hunger.tick.value ≤ a.hunger.max := by
    unfold Hunger.tick
    exact min_le_right _ _
  constructor
  · cases hini : a.initiative with
    | none =>
      simp only [ants_hunger_step, hini]
      exact ⟨h0, hm⟩
    | some i =>
      simp only [ants_hunger_step, hini]
      split
      · exact ⟨htick0, htickm⟩
      · split
        · split
          · exact ⟨htick0, htickm⟩
          · split
            · split
              · split
                · exact ⟨htick0, htickm⟩
                · exact ⟨htick0, htickm⟩
              · exact ⟨htick0, htickm⟩
            · split
              · refine ⟨sub_nonneg.mpr (min_le_right _ _), ?_⟩
                have hnn : 0 ≤ min (a.hunger.tick.max * (20 / 100)) a.hunger.tick.value :=
                  le_min (by positivity) htick0
                have : a.hunger.tick.max = a.hunger.max := rfl
                linarith [htickm]
              · exact ⟨htick0, htickm⟩
        · exact ⟨htick0, htickm⟩
  · intro ch oh hpeck hmeq hmpos hvm hov
    have hp : ch.value ≥ ch.max * (25 / 100) := by
      simpa [Hunger.is_peckish] using hpeck
    have hamt1 : min (oh.max * (20 / 100)) oh.value ≤ oh.max * (20 / 100) :=
      min_le_left _ _
    have hamt0 : 0 ≤ min (oh.max * (20 / 100)) oh.value :=
      le_min (by rw [← hmeq]; positivity) hov
    constructor
    · linarith [hamt1]
    · linarith

/-- C4 witness: the hunger-step invariant at a concrete full agent, and the
candidate bound at the scenario hungers. -/
theorem C4_clamp_witness :
    (0 ≤ (ants_hunger_step ⟨[]⟩ C4wit).1.hunger.value
      ∧ (ants_hunger_step ⟨[]⟩ C4wit).1.hunger.value ≤ C4wit.hunger.max)
    ∧ (0 ≤ (30 : ℚ) - min ((100 : ℚ) * (20 / 100)) 40
        ∧ (30 : ℚ) - min ((100 : ℚ) * (20 / 100)) 40 ≤ 100) := by
  have h := C4_clamp ⟨[]⟩ C4wit (by norm_num [C4wit]) (by norm_num [C4wit])
    (by norm_num [C4wit])
  exact ⟨h.1, h.2 ⟨30, 100, 1⟩ ⟨40, 100, 1⟩ (by norm_num [Hunger.is_peckish])
    rfl (by norm_num) (by norm_num) (by norm_num)⟩

/-- C5: the apply phase re-checks initiative and skips a pending transfer
entirely, with neither party changed, when either party can no longer act;
in the three-agent mutual-adjacency scenario (three co-located queens),
three transfers are proposed but exactly one pair commits (the first two
agents), and the third agent is untouched with its initiative intact. -/
theorem C5_apply_recheck :
    (∀ (ants : List Ant) (t : Nat × Nat × ℚ) (c o : Ant),
      ants.find? (fun a => a.id == t.1) = some c →
      ants.find? (fun a => a.id == t.2.1) = some o →
      (c.can_act = false ∨ o.can_act = false) →
      apply_transfer ants t = ants)
    ∧ propose_transfers [C5one, C5two, C5three] = [(0, 1, 20), (1, 0, 20), (2, 0, 20)]
    ∧ ants_regurgitate [C5one, C5two, C5three] =
        [{ C5one with hunger := ⟨10, 100, 1⟩, initiative := some ⟨false⟩ },
         { C5two with hunger := ⟨50, 100, 1⟩, initiative := some ⟨false⟩ },
         C5three]
    ∧ C5three.initiative = some ⟨true⟩ := by
  refine ⟨?_, ?_, ?_, rfl⟩
  · intro ants t c o hc ho hskip
    have hff : (c.can_act && o.can_act) = false := by
      rcases hskip with h | h <;> simp [h]
    obtain ⟨t1, t2, amt⟩ := t
    simp only [apply_transfer, hc, ho, hff, Bool.false_eq_true, if_false]
  · norm_num [propose_transfers, C5one, C5two, C5three, Ant.can_act, Initiative.can_act,
      Hunger.is_peckish, Hunger.is_starving, Hunger.is_hungry, Hunger.is_full,
      regurgitate_donor_pred, regurgitate_allowed, AntOrientation.get_ahead_position,
      List.filter, List.filterMap, List.find?]
  · norm_num [ants_regurgitate, propose_transfers, apply_transfer,
      C5one, C5two, C5three, Ant.can_act, Initiative.can_act, Initiative.consume,
      Hunger.is_peckish, Hunger.is_starving, Hunger.is_hungry, Hunger.is_full,
      regurgitate_donor_pred, regurgitate_allowed, AntOrientation.get_ahead_position,
      List.filter, List.filterMap, List.find?, List.foldl]
    all_goals decide

/-- C5 witness: the skip rule applied to the scenario list after the first
commit, where the first agent has spent its initiative: the transfer
(1, 0, 20) is skipped and the list is unchanged. -/
theorem C5_apply_recheck_witness :
    apply_transfer
        [{ C5one with hunger := ⟨10, 100, 1⟩, initiative := some ⟨false⟩ },
         { C5two with hunger := ⟨50, 100, 1⟩, initiative := some ⟨false⟩ },
         C5three] (1, 0, 20) =
      [{ C5one with hunger := ⟨10, 100, 1⟩, initiative := some ⟨false⟩ },
       { C5two with hunger := ⟨50, 100, 1⟩, initiative := some ⟨false⟩ },
       C5three] :=
  C5_apply_recheck.1 _ (1, 0, 20)
    { C5two with hunger := ⟨50, 100, 1⟩, initiative := some ⟨false⟩ }
    { C5one with hunger := ⟨10, 100, 1⟩, initiative := some ⟨false⟩ }
    (by
      rw [List.find?_cons_of_neg _ (by decide)]
      exact List.find?_cons_of_pos _ (by decide))
    (List.find?_cons_of_pos _ (by decide))
    (Or.inl (by decide))

/-- C6 counterexample: an agent whose post-tick hunger is 30 (below the
50-percent hungry tier of its max 100) while carrying food eats it: its
inventory is emptied, its hunger reduced to 10 and its initiative consumed,
so an agent below the hungry tier does act, contradicting the claim; the
code threshold is the peckish tier. -/
theorem C6_counterexample :
    (C6ant.hunger.tick).value < (C6ant.hunger.tick).max * (50 / 100)
      ∧ (C6ant.hunger.tick).is_starved = false
      ∧ ants_hunger ⟨[]⟩ [C6ant] =
          ([{ C6ant with hunger := ⟨10, 100, 1⟩, inventory := none,
                         initiative := some ⟨false⟩ }], [])
      ∧ (none : Option Element) ≠ C6ant.inventory
      ∧ (some (⟨false⟩ : Initiative)) ≠ C6ant.initiative := by
  refine ⟨?_, ?_, ?_, by decide, by decide⟩
  · norm_num [C6ant, Hunger.tick]
  · norm_num [C6ant, Hunger.tick, Hunger.is_starved]
  · norm_num [ants_hunger, ants_hunger_step, C6ant, Hunger.tick, Initiative.can_act,
      Initiative.consume, Hunger.is_peckish, Hunger.is_starved,
      WorldGrid.is_element, WorldGrid.get_element_entity,
      AntOrientation.get_ahead_position, List.map, List.filterMap, List.find?]

/-- C6 as amended: the acting threshold of the hunger system is the peckish
tier (25 percent of max), not the hungry tier: an agent whose post-tick
hunger is below the peckish tier only has its hunger advanced — inventory
and initiative unchanged and no dig issued — and a non-starved agent whose
inventory, initiative or dig output changes must have crossed the peckish
tier. -/
theorem C6_peckish_threshold (grid : WorldGrid) (a : Ant) (i : Initiative)
    (hini : a.initiative = some i) (hmax : 0 < a.hunger.max) :
    ((a.hunger.tick).is_peckish = false →
      ants_hunger_step grid a = ({ a with hunger := a.hunger.tick }, none))
    ∧ ((a.hunger.tick).is_starved = false →
        ((ants_hunger_step grid a).1.inventory ≠ a.inventory
          ∨ (ants_hunger_step grid a).1.initiative ≠ a.initiative
          ∨ (ants_hunger_step grid a).2 ≠ none) →
        (a.hunger.tick).is_peckish = true) := by
  have hstep : (a.hunger.tick).is_peckish = false →
      ants_hunger_step grid a = ({ a with hunger := a.hunger.tick }, none) := by
    intro hp
    have hv : (a.hunger.tick).value < (a.hunger.tick).max * (25 / 100) := by
      simpa [Hunger.is_peckish, not_le] using hp
    have hs : (a.hunger.tick).is_starved = false := by
      have hmx : (a.hunger.tick).max = a.hunger.max := rfl
      simp only [Hunger.is_starved, decide_eq_false_iff_not, not_le]
      nlinarith [hv]
    simp only [ants_hunger_step, hini, hs, Bool.false_eq_true, if_false, hp]
  refine ⟨hstep, ?_⟩
  intro hns hch
  by_cases hp : (a.hunger.tick).is_peckish = true
  · exact hp
  · exfalso
    rw [hstep (by simpa using hp)] at hch
    simp at hch

/-- C6 witness: a full agent (post-tick value 11 of max 100) is only
advanced: inventory, initiative and dig output unchanged. -/
theorem C6_peckish_threshold_witness :
    ants_hunger_step ⟨[]⟩ C6wit = ({ C6wit with hunger := C6wit.hunger.tick }, none) :=
  (C6_peckish_threshold ⟨[]⟩ C6wit ⟨true⟩ rfl (by norm_num [C6wit])).1
    (by norm_num [C6wit, Hunger.tick, Hunger.is_peckish])

/-- C7: an agent eligible to forage (peckish after the tick, not starved,
holding initiative, carrying nothing) with food in the single cell directly
ahead of its facing issues a dig for that food entity, and the dig command
consumes its initiative within the same tick. -/
theorem C7_forage_dig (grid : WorldGrid) (a : Ant) (i : Initiative) (f : Nat)
    (hini : a.initiative = some i) (hact : i.can_act = true)
    (hpeck : (a.hunger.tick).is_peckish = true)
    (hstarved : (a.hunger.tick).is_starved = false)
    (hinv : a.inventory = none)
    (hfood : grid.is_element (a.orientation.get_ahead_position a.position) Element.Food = true)
    (hent : grid.get_element_entity (a.orientation.get_ahead_position a.position) = some f) :
    ants_hunger grid [a] =
        ([{ a with hunger := a.hunger.tick }],
         [⟨a.id, a.orientation.get_ahead_position a.position, f⟩])
      ∧ apply_dig_commands [{ a with hunger := a.hunger.tick }]
          [⟨a.id, a.orientation.get_ahead_position a.position, f⟩] =
          [{ a with hunger := a.hunger.tick, initiative := some i.consume }] := by
  have hstep : ants_hunger_step grid a =
      ({ a with hunger := a.hunger.tick },
       some ⟨a.id, a.orientation.get_ahead_position a.position, f⟩) := by
    simp only [ants_hunger_step, hini, hstarved, Bool.false_eq_true, if_false, hpeck,
      if_true, hact, Bool.not_true, hinv, hfood, hent]
  constructor
  · simp only [ants_hunger, List.map, List.filterMap, hstep]
  · simp only [apply_dig_commands, List.map, List.any, beq_self_eq_true, Bool.or_false,
      if_true, hini, Option.map]

/-- C7 witness: the concrete forager next to food entity 7 digs it and its
initiative is consumed by the dig command. -/
theorem C7_forage_dig_witness :
    ants_hunger C7grid [C7ant] =
        ([{ C7ant with hunger := C7ant.hunger.tick }],
         [⟨C7ant.id, C7ant.orientation.get_ahead_position C7ant.position, 7⟩])
      ∧ apply_dig_commands [{ C7ant with hunger := C7ant.hunger.tick }]
          [⟨C7ant.id, C7ant.orientation.get_ahead_position C7ant.position, 7⟩] =
          [{ C7ant with hunger := C7ant.hunger.tick,
                        initiative := some (Initiative.consume ⟨true⟩) }] :=
  C7_forage_dig C7grid C7ant ⟨true⟩ 7 rfl rfl
    (by norm_num [C7ant, Hunger.tick, Hunger.is_peckish])
    (by norm_num [C7ant, Hunger.tick, Hunger.is_starved])
    rfl (by decide) (by decide)

/-- A donor accepted by the search predicate still holds initiative. -/
theorem regurgitate_donor_pred_can_act (c : Ant) (ah : Position) (o : Ant)
    (h : regurgitate_donor_pred c ah o = true) : o.can_act = true := by
  cases hcan : o.can_act with
  | true => rfl
  | false => simp [regurgitate_donor_pred, hcan] at h

/-- Every proposed transfer names a candidate and a donor that are members
of the agent list and held initiative at propose time. -/
theorem regurgitate_propose_parties (ants : List Ant) (t : Nat × Nat × ℚ)
    (ht : t ∈ propose_transfers ants) :
    ∃ c, c ∈ ants ∧ c.id = t.1 ∧ c.can_act = true
      ∧ ∃ o, o ∈ ants ∧ o.id = t.2.1 ∧ o.can_act = true := by
  simp only [propose_transfers] at ht
  rw [List.mem_filterMap] at ht
  obtain ⟨c, hcmem, hfc⟩ := ht
  rw [List.mem_filter] at hcmem
  obtain ⟨hcants, hcpred⟩ := hcmem
  have hcact : c.can_act = true := by
    simp only [Bool.and_eq_true] at hcpred
    exact hcpred.1.1
  cases hfind : ants.find?
      (regurgitate_donor_pred c (c.orientation.get_ahead_position c.position)) with
  | none =>
    rw [hfind] at hfc
    simp at hfc
  | some o =>
    rw [hfind] at hfc
    dsimp only at hfc
    have hoact : o.can_act = true :=
      regurgitate_donor_pred_can_act c _ o (List.find?_some hfind)
    have homem : o ∈ ants := List.mem_of_find?_eq_some hfind
    by_cases hall : regurgitate_allowed c o = true
    · rw [if_pos hall] at hfc
      obtain rfl := Option.some.inj hfc
      exact ⟨c, hcants, rfl, hcact, o, homem, rfl, hoact⟩
    · rw [if_neg hall] at hfc
      simp at hfc

/-- The apply phase never changes an agent whose entity is not a party of
the transfer. -/
theorem apply_transfer_untouched (ants : List Ant) (t : Nat × Nat × ℚ) (i : Nat) (a : Ant)
    (hi : ants[i]? = some a) (h1 : a.id ≠ t.1) (h2 : a.id ≠ t.2.1) :
    (apply_transfer ants t)[i]? = some a := by
  obtain ⟨t1, t2, amt⟩ := t
  simp only at h1 h2
  unfold apply_transfer
  cases hc : ants.find? (fun x => x.id == t1) with
  | none =>
    simp only [hc]
    exact hi
  | some c =>
    cases ho : ants.find? (fun x => x.id == t2) with
    | none =>
      simp only [hc, ho]
      exact hi
    | some o =>
      simp only [hc, ho]
      by_cases hact : (c.can_act && o.can_act) = true
      · rw [if_pos hact, List.getElem?_map, hi]
        simp [h1, h2]
      · rw [if_neg hact]
        exact hi

/-- Folding the apply phase over any transfer list never changes an agent
that is not a party of any transfer. -/
theorem foldl_apply_transfer_untouched (ts : List (Nat × Nat × ℚ)) (ants : List Ant)
    (i : Nat) (a : Ant) (hi : ants[i]? = some a)
    (h : ∀ t ∈ ts, a.id ≠ t.1 ∧ a.id ≠ t.2.1) :
    (ts.foldl apply_transfer ants)[i]? = some a := by
  induction ts generalizing ants with
  | nil => simpa using hi
  | cons t ts ih =>
    simp only [List.foldl_cons]
    exact ih (apply_transfer ants t)
      (apply_transfer_untouched ants t i a hi
        (h t (List.mem_cons_self t ts)).1 (h t (List.mem_cons_self t ts)).2)
      (fun t' ht' => h t' (List.mem_cons_of_mem t ht'))

/-- C8: an agent whose post-tick Hunger value reaches max is marked Dead
and its Initiative component removed by the same hunger pass; an agent
without Initiative is not selected by the hunger system (it is returned
unchanged with no dig), nor by the regurgitation system (with distinct
entity ids, its entry is unchanged by the whole propose and apply run), so
a dead agent is never acted upon again. -/
theorem C8_starved_dead :
    (∀ (grid : WorldGrid) (a : Ant) (i : Initiative),
      a.initiative = some i → (a.hunger.tick).is_starved = true →
      ants_hunger_step grid a =
        ({ a with hunger := a.hunger.tick, dead := true, initiative := none }, none))
    ∧ (∀ (grid : WorldGrid) (a : Ant),
        a.initiative = none → ants_hunger_step grid a = (a, none))
    ∧ (∀ (ants : List Ant) (i : Nat) (a : Ant),
        (ants.map Ant.id).Nodup → ants[i]? = some a → a.initiative = none →
        (ants_regurgitate ants)[i]? = some a) := by
  refine ⟨?_, ?_, ?_⟩
  · intro grid a i hini hs
    simp only [ants_hunger_step, hini, hs, if_true]
  · intro grid a hini
    simp only [ants_hunger_step, hini]
  · intro ants i a hnd hi hini
    have ha : a ∈ ants := by
      obtain ⟨hlt, rfl⟩ := List.getElem?_eq_some.mp hi
      exact List.getElem_mem ..
    have hacan : a.can_act = false := by simp [Ant.can_act, hini]
    unfold ants_regurgitate
    apply foldl_apply_transfer_untouched _ _ _ _ hi
    intro t ht
    obtain ⟨c, hcmem, hcid, hcact, o, homem, hoid, hoact⟩ :=
      regurgitate_propose_parties ants t ht
    constructor
    · intro he
      have hca : c = a :=
        List.inj_on_of_nodup_map hnd hcmem ha (hcid.trans he.symm)
      rw [hca, hacan] at hcact
      cases hcact
    · intro he
      have hoa : o = a :=
        List.inj_on_of_nodup_map hnd homem ha (hoid.trans he.symm)
      rw [hoa, hacan] at hoact
      cases hoact

/-- C8 witness: the concrete agent reaching max on this tick dies and its
initiative is removed. -/
theorem C8_starved_dead_witness :
    ants_hunger_step ⟨[]⟩ C8ant =
      ({ C8ant with hunger := C8ant.hunger.tick, dead := true, initiative := none }, none) :=
  C8_starved_dead.1 ⟨[]⟩ C8ant ⟨true⟩ rfl
    (by norm_num [C8ant, Hunger.tick, Hunger.is_starved])

end Symbiants
